import Mathlib

/-!
Verification of the snake-game simulation core of this repository
(`src/snake_game/game/snake_engine.py` and `src/snake_game/game/levels.py`),
as a shallow embedding in Lean 4.

Modelling conventions:
* Grid coordinates are `Int` (Python ints; the head can move to negative
  coordinates before the wall check fires).
* Python's global `random` module is modelled as an explicit generator state
  `RState = (seed, draw counter)` threaded through every operation, together
  with an arbitrary pure draw function `draw : Nat → Nat → Nat` mapping
  (seed, counter) to the raw random value.  `random.seed(k)` resets the state
  to `(k, 0)`; `random.randint(a, b)` maps the next raw value into `[a, b]`
  and fails (Python `ValueError`) when `a > b`.  Every theorem below is
  universally quantified over `draw`, so it holds for any deterministic
  pseudo-random generator, Mersenne Twister included.
* `Food.regenerate` is an unbounded `while True` loop in the source; it is
  embedded with an explicit fuel parameter and returns `none` when the fuel
  runs out (or when a `randint` range is empty), `some` when the loop exits.
* Python integer `//` and `%` on the (positive) values appearing here agree
  with `Int.ediv` / `Int.emod`, which are used throughout.
-/

/-- Global random-generator state: (current seed, number of draws made). -/
def RState : Type := Nat × Nat

instance : DecidableEq RState := instDecidableEqProd

/-- Model of `random.randint(a, b)`: consumes one raw draw and maps it into
`[a, b]`; `none` models the `ValueError` raised when `a > b`. -/
def randint (draw : Nat → Nat → Nat) (a b : Int) (g : RState) :
    Option (Int × RState) :=
  if a ≤ b then
    some (a + (draw g.1 g.2 : Int) % (b - a + 1), (g.1, g.2 + 1))
  else
    none

/-- Model of `random.seed(k)`. -/
def rseed (k : Nat) (_g : RState) : RState := (k, 0)

/-- The `Direction` enumeration from `snake_engine.py`. -/
inductive Direction : Type
  | up
  | down
  | left
  | right
deriving DecidableEq

/-- The `.value` unit vector of each `Direction` member. -/
def Direction.value : Direction → Int × Int
  | .up => (0, -1)
  | .down => (0, 1)
  | .left => (-1, 0)
  | .right => (1, 0)

/-- The `Snake` class: body (head first), current direction, pending growth. -/
structure Snake : Type where
  body : List (Int × Int)
  direction : Direction
  grow_pending : Bool
deriving DecidableEq

/-- Embeds `Snake.__init__(start_x, start_y)`. -/
def Snake.init (start_x start_y : Int) : Snake :=
  { body := [(start_x, start_y)], direction := .right, grow_pending := false }

/-- Embeds `Snake.move()`: prepend the new head, then drop the tail unless growth is
pending.  Returns the new head together with the updated snake.  (In Python a
snake with an empty body would raise `IndexError` on `self.body[0]`; bodies
are never empty in any state built by the engine, and `headD` supplies a
junk head in that unreachable case.) -/
def Snake.move (s : Snake) : (Int × Int) × Snake :=
  let head := s.body.headD (0, 0)
  let d := s.direction.value
  let new_head := (head.1 + d.1, head.2 + d.2)
  let body1 := new_head :: s.body
  if ¬ s.grow_pending then
    (new_head, { s with body := body1.dropLast })
  else
    (new_head, { s with body := body1, grow_pending := false })

/-- Embeds `Snake.change_direction(new_direction)`: ignored when `new_direction` is
the opposite of the current direction. -/
def Snake.change_direction (s : Snake) (new_direction : Direction) : Snake :=
  if s.direction = .up ∧ new_direction = .down then s
  else if s.direction = .down ∧ new_direction = .up then s
  else if s.direction = .left ∧ new_direction = .right then s
  else if s.direction = .right ∧ new_direction = .left then s
  else { s with direction := new_direction }

/-- Embeds `Snake.grow()`. -/
def Snake.grow (s : Snake) : Snake := { s with grow_pending := true }

/-- Embeds `Snake.check_self_collision()`: head appears among the remaining body
elements. -/
def Snake.check_self_collision (s : Snake) : Bool :=
  decide (s.body.headD (0, 0) ∈ s.body.tail)

/-- Embeds `Snake.get_head()`. -/
def Snake.get_head (s : Snake) : Int × Int := s.body.headD (0, 0)

/-- Embeds `Snake.get_body()`. -/
def Snake.get_body (s : Snake) : List (Int × Int) := s.body

/-- The `Food` class: board bounds, obstacle list, current position. -/
structure Food : Type where
  width : Int
  height : Int
  obstacles : List (Int × Int)
  position : Int × Int
deriving DecidableEq

/-- Embeds `Food.regenerate(snake_body)`: resample from the interior until the
position avoids both the snake body and the food's obstacle list.  The
source is an unbounded `while True:` loop; `fuel` bounds the number of
iterations of the model, with `none` meaning the loop did not exit within
`fuel` samples. -/
def Food.regenerate (draw : Nat → Nat → Nat) :
    Nat → List (Int × Int) → Food → RState → Option (Food × RState)
  | 0, _, _, _ => none
  | fuel + 1, snake_body, f, g =>
    match randint draw 1 (f.width - 2) g with
    | none => none
    | some (x, g1) =>
      match randint draw 1 (f.height - 2) g1 with
      | none => none
      | some (y, g2) =>
        if (x, y) ∉ snake_body ∧ (x, y) ∉ f.obstacles then
          some ({ f with position := (x, y) }, g2)
        else
          Food.regenerate draw fuel snake_body f g2

/-- Embeds `Food.get_position()`. -/
def Food.get_position (f : Food) : Int × Int := f.position

/-- Python `range(a, b)` as a list of `Int`. -/
def intRange (a b : Int) : List Int :=
  (List.range (b - a).toNat).map (fun (i : Nat) => a + (i : Int))

/-- Python `range(a, b, 3)` as a list of `Int`. -/
def intRange3 (a b : Int) : List Int :=
  (List.range ((b - a + 2) / 3).toNat).map (fun (i : Nat) => a + 3 * (i : Int))

/-- The level-5 "spiral" offsets `(int(r*cos(radians(angle))),
int(r*sin(radians(angle))))` for `r = 1, 2, 3` (outer list) and
`angle = 0, 30, ..., 330` (inner lists), with `int(...)` truncating the
IEEE-double trigonometric values toward zero exactly as CPython does.
Every claim below is independent of the exact entries: the generator clips
each offset against the strict-interior guard before using it. -/
def spiralOffsets : List (List (Int × Int)) :=
  [[(1, 0), (0, 0), (0, 0), (0, 1), (0, 0), (0, 0),
    (-1, 0), (0, 0), (0, 0), (0, -1), (0, 0), (0, 0)],
   [(2, 0), (1, 0), (1, 1), (0, 2), (0, 1), (-1, 0),
    (-2, 0), (-1, 0), (-1, -1), (0, -2), (1, -1), (1, -1)],
   [(3, 0), (2, 1), (1, 2), (0, 3), (-1, 2), (-2, 1),
    (-3, 0), (-2, -1), (-1, -2), (0, -3), (1, -2), (2, -1)]]

/-- The seeded scatter loop shared by levels 7 and ≥ 10: `n` iterations, each
drawing `x ∈ [ax, bx]` and `y ∈ [ay, by]` and appending `(x, y)` to the
accumulated list; when `dupCheck` is set (level ≥ 10) a pair already present
is skipped (but its draws are still consumed). -/
def scatter (draw : Nat → Nat → Nat) (dupCheck : Bool) (ax bx ay bY : Int) :
    Nat → List (Int × Int) → RState → Option (List (Int × Int) × RState)
  | 0, acc, g => some (acc, g)
  | n + 1, acc, g =>
    match randint draw ax bx g with
    | none => none
    | some (x, g1) =>
      match randint draw ay bY g1 with
      | none => none
      | some (y, g2) =>
        if dupCheck = true ∧ (x, y) ∈ acc then
          scatter draw dupCheck ax bx ay bY n acc g2
        else
          scatter draw dupCheck ax bx ay bY n (acc ++ [(x, y)]) g2

/-- Embeds `LevelManager.get_level_obstacles(level, width, height)` from
`levels.py`, threading the global generator state; `none` models the
`ValueError` raised by `random.randint` on an empty range. -/
def get_level_obstacles (draw : Nat → Nat → Nat) (level : Nat)
    (width height : Int) (g : RState) :
    Option (List (Int × Int) × RState) :=
  if level = 1 then
    some ([], g)
  else if level = 2 then
    -- Level 2: central cross, each point clipped to the interior; the
    -- horizontal pass skips points already placed by the vertical pass.
    let mid_x := width / 2
    let mid_y := height / 2
    let obstacles := (intRange (mid_y - 2) (mid_y + 3)).foldl
      (fun acc y => if 0 < y ∧ y < height - 1 then acc ++ [(mid_x, y)] else acc) []
    let obstacles := (intRange (mid_x - 3) (mid_x + 4)).foldl
      (fun acc x =>
        if 0 < x ∧ x < width - 1 ∧ (x, mid_y) ∉ acc then acc ++ [(x, mid_y)]
        else acc) obstacles
    some (obstacles, g)
  else if level = 3 then
    -- Level 3: two rectangular corner blocks, no clipping in the source.
    let tl := (intRange 3 8).foldl
      (fun acc x => acc ++ (intRange 3 6).map (fun y => ((x : Int), y))) []
    let br := (intRange (width - 8) (width - 3)).foldl
      (fun acc x => acc ++ (intRange (height - 6) (height - 3)).map
        (fun y => ((x : Int), y))) tl
    some (br, g)
  else if level = 4 then
    -- Level 4: corridor walls on every 4th row, no clipping in the source.
    let obstacles := (intRange 4 (height - 4)).foldl
      (fun acc y =>
        if y % 4 = 0 then
          let acc := acc ++ (intRange 4 (width - 10)).map (fun x => (x, y))
          acc ++ (intRange (width - 6) (width - 4)).map (fun x => (x, y))
        else acc) []
    some (obstacles, g)
  else if level = 5 then
    -- Level 5: trigonometric "spiral", clipped strictly inside.
    let center_x := width / 2
    let center_y := height / 2
    let obstacles := spiralOffsets.foldl
      (fun acc ring => ring.foldl
        (fun acc dxy =>
          let x := center_x + dxy.1
          let y := center_y + dxy.2
          if 1 < x ∧ x < width - 2 ∧ 1 < y ∧ y < height - 2 then acc ++ [(x, y)]
          else acc) acc) []
    some (obstacles, g)
  else if level = 6 then
    -- Level 6: rectangular ring offset from the border.
    let obstacles := (intRange 3 (width - 3)).foldl
      (fun acc x => acc ++ [(x, 3), (x, height - 4)]) []
    let obstacles := (intRange 3 (height - 3)).foldl
      (fun acc y => acc ++ [((3 : Int), y), (width - 4, y)]) obstacles
    some (obstacles, g)
  else if level = 7 then
    -- Level 7: seeded random scatter (`random.seed(42)`).
    let g := rseed 42 g
    let count := (min 20 (width * height / 20)).toNat
    scatter draw false 4 (width - 5) 4 (height - 5) count [] g
  else if level = 8 then
    -- Level 8: diamond outline at constant Manhattan distance, clipped.
    let center_x := width / 2
    let center_y := height / 2
    let size := min width height / 4
    let obstacles := (intRange (center_x - size) (center_x + size + 1)).foldl
      (fun acc x => (intRange (center_y - size) (center_y + size + 1)).foldl
        (fun acc y =>
          if ((x - center_x).natAbs : Int) + ((y - center_y).natAbs : Int) = size then
            if 1 < x ∧ x < width - 2 ∧ 1 < y ∧ y < height - 2 then acc ++ [(x, y)]
            else acc
          else acc) acc) []
    some (obstacles, g)
  else if level = 9 then
    -- Level 9: corridor grid in both axes with periodic gaps.
    let obstacles := (intRange3 5 (width - 5)).foldl
      (fun acc x => (intRange 2 (height - 2)).foldl
        (fun acc y => if ¬ y % 4 = 0 then acc ++ [(x, y)] else acc) acc) []
    let obstacles := (intRange3 5 (height - 5)).foldl
      (fun acc y => (intRange 2 (width - 2)).foldl
        (fun acc x => if ¬ x % 4 = 0 then acc ++ [(x, y)] else acc) acc) obstacles
    some (obstacles, g)
  else if 10 ≤ level then
    -- Level 10+: small clipped central cross plus a seeded scatter
    -- (`random.seed(level)`) that skips duplicates.
    let g := rseed level g
    let center_x := width / 2
    let center_y := height / 2
    let obstacles := (intRange (-2) 3).foldl
      (fun acc i =>
        let acc :=
          if 1 < center_x + i ∧ center_x + i < width - 2 then
            acc ++ [(center_x + i, center_y)]
          else acc
        if 1 < center_y + i ∧ center_y + i < height - 2 then
          acc ++ [(center_x, center_y + i)]
        else acc) []
    let num_obstacles := (min (30 + (level : Int)) (width * height / 15)).toNat
    scatter draw true 3 (width - 4) 3 (height - 4) num_obstacles obstacles g
  else
    some ([], g)

/-- The `GameState` class (fields in source order). -/
structure GameState : Type where
  width : Int
  height : Int
  score : Nat
  level : Nat
  foods_eaten : Nat
  foods_per_level : Nat
  game_over : Bool
  game_won : Bool
  max_level : Nat
  snake : Snake
  food : Food
deriving DecidableEq

/-- Embeds `GameState._advance_level()`: mark the game won at the maximum level,
otherwise bump the level, reset the food counter, add the 50-point bonus,
install the new level's obstacles into the food and regenerate it. -/
def GameState.advance_level (draw : Nat → Nat → Nat) (fuel : Nat)
    (gs : GameState) (g : RState) : Option (GameState × RState) :=
  if gs.max_level ≤ gs.level then
    some ({ gs with game_won := true }, g)
  else
    let gs1 := { gs with level := gs.level + 1, foods_eaten := 0,
                         score := gs.score + 50 }
    match get_level_obstacles draw gs1.level gs1.width gs1.height g with
    | none => none
    | some (obstacles, g1) =>
      let food1 := { gs1.food with obstacles := obstacles }
      match Food.regenerate draw fuel gs1.snake.body food1 g1 with
      | none => none
      | some (food2, g2) => some ({ gs1 with food := food2 }, g2)

/-- Embeds `GameState.update()`: one tick.  Returns the updated state, the boolean
result of `update()`, and the generator state; `none` models the two ways the
source can fail to return (a `randint` on an empty range inside the obstacle
generator, or the food-regeneration loop not terminating within `fuel`). -/
def GameState.update (draw : Nat → Nat → Nat) (fuel : Nat)
    (gs : GameState) (g : RState) : Option (GameState × Bool × RState) :=
  if gs.game_over ∨ gs.game_won then
    some (gs, false, g)
  else
    let mv := gs.snake.move
    let new_head := mv.1
    let gs1 := { gs with snake := mv.2 }
    if new_head.1 ≤ 0 ∨ gs.width - 1 ≤ new_head.1 ∨
        new_head.2 ≤ 0 ∨ gs.height - 1 ≤ new_head.2 then
      some ({ gs1 with game_over := true }, false, g)
    else
      match get_level_obstacles draw gs.level gs.width gs.height g with
      | none => none
      | some (obstacles, g1) =>
        if new_head ∈ obstacles then
          some ({ gs1 with game_over := true }, false, g1)
        else if mv.2.check_self_collision then
          some ({ gs1 with game_over := true }, false, g1)
        else if new_head = gs.food.position then
          let gs2 := { gs1 with snake := mv.2.grow, score := gs.score + 10,
                                foods_eaten := gs.foods_eaten + 1 }
          match Food.regenerate draw fuel gs2.snake.body gs.food g1 with
          | none => none
          | some (food1, g2) =>
            let gs3 := { gs2 with food := food1 }
            if gs3.foods_per_level ≤ gs3.foods_eaten then
              match GameState.advance_level draw fuel gs3 g2 with
              | none => none
              | some (gs4, g3) => some (gs4, true, g3)
            else
              some (gs3, true, g2)
        else
          some (gs1, true, g1)

/-- Embeds `GameState.change_snake_direction(direction)`: unconditional delegation
to `Snake.change_direction` (the source has no terminal-state guard). -/
def GameState.change_snake_direction (gs : GameState) (direction : Direction) :
    GameState :=
  { gs with snake := gs.snake.change_direction direction }

/-- Embeds `GameState.get_obstacles()`. -/
def GameState.get_obstacles (draw : Nat → Nat → Nat) (gs : GameState)
    (g : RState) : Option (List (Int × Int) × RState) :=
  get_level_obstacles draw gs.level gs.width gs.height g

/-- Embeds `GameState.is_game_over()`. -/
def GameState.is_game_over (gs : GameState) : Bool := gs.game_over

/-- Embeds `GameState.is_game_won()`. -/
def GameState.is_game_won (gs : GameState) : Bool := gs.game_won

/-- Embeds `GameState.get_progress()`: the f-string
`f"Level {level} - Food: {foods_eaten}/{foods_per_level}"`. -/
def GameState.get_progress (gs : GameState) : String :=
  "Level " ++ toString gs.level ++ " - Food: " ++ toString gs.foods_eaten ++
    "/" ++ toString gs.foods_per_level

/-- Rendering of the triple that the spec says `get_progress()` returns;
used only to compare the actual string against the spec's claimed shape. -/
def get_progress_spec (gs : GameState) : Nat × Nat × Nat :=
  (gs.level, gs.foods_eaten, gs.foods_per_level)

/-- Terminal state used to refute the claim that direction changes are
ignored once the game is over. -/
def gsDead : GameState :=
  { width := 20, height := 15, score := 30, level := 1, foods_eaten := 3,
    foods_per_level := 5, game_over := true, game_won := false,
    max_level := 10,
    snake := { body := [(5, 7), (4, 7)], direction := .right,
               grow_pending := false },
    food := { width := 20, height := 15, obstacles := [], position := (9, 9) } }

/-- Concrete state used to refute the claim that `get_progress()` returns a
triple. -/
def gsProgress : GameState :=
  { width := 20, height := 15, score := 70, level := 3, foods_eaten := 2,
    foods_per_level := 5, game_over := false, game_won := false,
    max_level := 10,
    snake := { body := [(5, 7)], direction := .right, grow_pending := false },
    food := { width := 20, height := 15, obstacles := [], position := (9, 9) } }

/-- A 3×3 board has the single interior cell `(1, 1)`; with the snake on it
the free interior is empty. -/
def fullFood : Food :=
  { width := 3, height := 3, obstacles := [], position := (1, 1) }

/-- Constant draw function used for concrete evaluations. -/
def drawC : Nat → Nat → Nat := fun _ _ => 0

/-- A 50-segment snake filling rows 14–16, head at `(26, 14)`, as found late
in a level-10 game on the default 30×20 board. -/
def winBody : List (Int × Int) :=
  (intRange 4 27).reverse.map (fun x => (x, 14)) ++ [((4 : Int), 15)] ++
    (intRange 5 27).map (fun x => (x, 15)) ++
    [((26 : Int), 16), (25, 16), (24, 16), (23, 16)]

/-- The level-10 obstacle list on a 30×20 board under `drawC`. -/
def obs10 : List (Int × Int) :=
  ((get_level_obstacles drawC 10 30 20 (0, 0)).map Prod.fst).getD []

/-- A level-10 state one food short of the threshold, with the food directly
in front of the snake's head. -/
def gsWin : GameState :=
  { width := 30, height := 20, score := 940, level := 10, foods_eaten := 4,
    foods_per_level := 5, game_over := false, game_won := false,
    max_level := 10,
    snake := { body := winBody, direction := .right, grow_pending := false },
    food := { width := 30, height := 20, obstacles := obs10,
              position := (27, 14) } }

/-- A non-terminal mid-game state on a 20×15 board about to make a plain
move. -/
def gsA : GameState :=
  { width := 20, height := 15, score := 0, level := 1, foods_eaten := 0,
    foods_per_level := 5, game_over := false, game_won := false,
    max_level := 10,
    snake := { body := [(10, 7)], direction := .right, grow_pending := false },
    food := { width := 20, height := 15, obstacles := [], position := (9, 9) } }

/-- The state after one plain `update()` from `gsA`. -/
def gsA1 : GameState :=
  ((GameState.update drawC 1 gsA (0, 0)).map Prod.fst).getD gsA

/-- The state and generator after the winning tick from `gsWin`. -/
def gsWinAfter : GameState :=
  ((GameState.update drawC 9 gsWin (0, 0)).map Prod.fst).getD gsWin

/-- Generator state after the winning tick from `gsWin`. -/
def gWinAfter : RState :=
  ((GameState.update drawC 9 gsWin (0, 0)).map (fun r => r.2.2)).getD (0, 0)

/-- Relation `PlaysN draw n s t`: from configuration `s` (game state plus generator
state) the game reaches `t` through a finite sequence of `update()` calls
that all return `true`, exactly `n` of which change the score (i.e. are
food-eating ticks; every other branch of a true-returning tick leaves the
score unchanged). -/
inductive PlaysN (draw : Nat → Nat → Nat) :
    Nat → GameState × RState → GameState × RState → Prop
  | refl (s : GameState × RState) : PlaysN draw 0 s s
  | quiet {fuel : Nat} {gs : GameState} {g : RState} {gs' : GameState}
      {g' : RState} {n : Nat} {t : GameState × RState} :
      GameState.update draw fuel gs g = some (gs', true, g') →
      gs'.score = gs.score →
      PlaysN draw n (gs', g') t → PlaysN draw n (gs, g) t
  | food {fuel : Nat} {gs : GameState} {g : RState} {gs' : GameState}
      {g' : RState} {n : Nat} {t : GameState × RState} :
      GameState.update draw fuel gs g = some (gs', true, g') →
      gs'.score ≠ gs.score →
      PlaysN draw n (gs', g') t → PlaysN draw (n + 1) (gs, g) t

/-- Invariant of a level-1 run that has eaten `k < 5` foods: level 1,
`k` foods counted, `10 k` points, threshold 5, maximum level 10. -/
def LevelOneRun (gs : GameState) (k : Nat) : Prop :=
  gs.level = 1 ∧ gs.foods_eaten = k ∧ gs.score = 10 * k ∧
    gs.foods_per_level = 5 ∧ gs.max_level = 10

/-- Draw function scripting the witness run: food appears at `(7,7)`,
`(8,7)`, `(9,7)`, `(10,7)` and then `(1,1)` / `(1,2)` after the level
advance. -/
def drawB : Nat → Nat → Nat :=
  fun _ i => [6, 6, 7, 6, 8, 6, 9, 6, 0, 0, 0, 1].getD i 0

/-- Initial level-1 configuration of the witness run: one-cell snake at
`(5,7)` facing right on a 20×15 board, food directly ahead at `(6,7)`. -/
def gsB0 : GameState :=
  { width := 20, height := 15, score := 0, level := 1, foods_eaten := 0,
    foods_per_level := 5, game_over := false, game_won := false,
    max_level := 10,
    snake := { body := [(5, 7)], direction := .right, grow_pending := false },
    food := { width := 20, height := 15, obstacles := [], position := (6, 7) } }

/-- One scripted tick of the witness run. -/
def stepB (p : GameState × RState) : GameState × RState :=
  match GameState.update drawB 9 p.1 p.2 with
  | some (gs, _, g) => (gs, g)
  | none => p

/-- Configurations of the witness run after each tick. -/
def sB1 : GameState × RState := stepB (gsB0, (0, 0))

/-- Configuration after the second tick. -/
def sB2 : GameState × RState := stepB sB1

/-- Configuration after the third tick. -/
def sB3 : GameState × RState := stepB sB2

/-- Configuration after the fourth tick. -/
def sB4 : GameState × RState := stepB sB3

/-- Configuration after the fifth tick. -/
def sB5 : GameState × RState := stepB sB4

/-- Strict interior of the border ring of a `width` × `height` board. -/
def Interior (width height : Int) (q : Int × Int) : Prop :=
  0 < q.1 ∧ q.1 < width - 1 ∧ 0 < q.2 ∧ q.2 < height - 1

/-! ### Helper lemmas -/

theorem randint_bounds {draw : Nat → Nat → Nat} {a b : Int} {g : RState}
    {x : Int} {g1 : RState} (h : randint draw a b g = some (x, g1)) :
    a ≤ x ∧ x ≤ b := by
  unfold randint at h
  split at h
  · rename_i hab
    injection h with h'
    have hx : x = a + (draw g.1 g.2 : Int) % (b - a + 1) := by
      have := congrArg Prod.fst h'
      simpa using this.symm
    have hpos : (0 : Int) < b - a + 1 := by omega
    have h1 : 0 ≤ (draw g.1 g.2 : Int) % (b - a + 1) :=
      Int.emod_nonneg _ (by omega)
    have h2 : (draw g.1 g.2 : Int) % (b - a + 1) < b - a + 1 :=
      Int.emod_lt_of_pos _ hpos
    omega
  · exact absurd h (by simp)

/-! ### C6: `Snake.move` -/

/-- C6: `move()` returns exactly the old head translated by the current
direction's unit vector; that coordinate becomes the new first body element;
when `grow_pending` was false the last body element is dropped and the length
is unchanged, when it was true the tail is kept, `grow_pending` is cleared,
and the length grows by exactly one; no other body element changes (the new
body is determined elementwise by the old one). -/
theorem snake_move_spec (s : Snake) (p : Int × Int) (t : List (Int × Int))
    (hb : s.body = p :: t) :
    (s.move).1 = (p.1 + s.direction.value.1, p.2 + s.direction.value.2) ∧
    (s.move).2.body =
      (if s.grow_pending then (s.move).1 :: s.body
       else (s.move).1 :: s.body.dropLast) ∧
    (s.move).2.body.length =
      s.body.length + (if s.grow_pending then 1 else 0) ∧
    (s.move).2.grow_pending = false ∧
    (s.move).2.direction = s.direction := by
  cases s with
  | mk body dir gp =>
    subst hb
    cases gp with
    | false => simp [Snake.move, List.dropLast_cons₂]
    | true => simp [Snake.move]

/-- Witness for `snake_move_spec` at a concrete two-segment snake facing
right. -/
theorem snake_move_spec_witness :
    (Snake.move { body := [(3, 3), (2, 3)], direction := .right,
                  grow_pending := false }).1 = (4, 3) ∧
    (Snake.move { body := [(3, 3), (2, 3)], direction := .right,
                  grow_pending := false }).2.body = [(4, 3), (3, 3)] ∧
    (Snake.move { body := [(3, 3), (2, 3)], direction := .right,
                  grow_pending := false }).2.grow_pending = false := by
  have h := snake_move_spec
    { body := [(3, 3), (2, 3)], direction := .right, grow_pending := false }
    (3, 3) [(2, 3)] rfl
  exact ⟨h.1, by simpa using h.2.1, h.2.2.2.1⟩

/-! ### C2: `change_snake_direction` in terminal states -/

/-- C2 counterexample: in a state with `game_over = true`, calling
`change_snake_direction(UP)` does change the snake's direction (from RIGHT
to UP) — the source has no terminal-state guard, so the request is not
ignored. -/
theorem change_direction_terminal_counterexample :
    gsDead.is_game_over = true ∧
    (gsDead.change_snake_direction .up).snake.direction = .up ∧
    gsDead.snake.direction = .right ∧
    ¬ (gsDead.change_snake_direction .up).snake.direction
        = gsDead.snake.direction := by
  decide

/-- C2 amended: `change_snake_direction(d)` always delegates to
`Snake.change_direction`, terminal or not: the direction becomes `d` unless
`d` is the opposite of the current direction (in which case it is kept), and
no other field of the state changes. -/
theorem change_snake_direction_delegates (gs : GameState) (d : Direction) :
    (gs.change_snake_direction d).snake.direction =
      (if (gs.snake.direction = .up ∧ d = .down) ∨
          (gs.snake.direction = .down ∧ d = .up) ∨
          (gs.snake.direction = .left ∧ d = .right) ∨
          (gs.snake.direction = .right ∧ d = .left)
       then gs.snake.direction else d) ∧
    (gs.change_snake_direction d).snake.body = gs.snake.body ∧
    (gs.change_snake_direction d).snake.grow_pending
      = gs.snake.grow_pending ∧
    (gs.change_snake_direction d).width = gs.width ∧
    (gs.change_snake_direction d).height = gs.height ∧
    (gs.change_snake_direction d).score = gs.score ∧
    (gs.change_snake_direction d).level = gs.level ∧
    (gs.change_snake_direction d).foods_eaten = gs.foods_eaten ∧
    (gs.change_snake_direction d).foods_per_level = gs.foods_per_level ∧
    (gs.change_snake_direction d).game_over = gs.game_over ∧
    (gs.change_snake_direction d).game_won = gs.game_won ∧
    (gs.change_snake_direction d).max_level = gs.max_level ∧
    (gs.change_snake_direction d).food = gs.food := by
  unfold GameState.change_snake_direction Snake.change_direction
  split_ifs
  all_goals simp_all
  all_goals tauto

/-! ### C9: `get_progress` -/

/-- C9 counterexample: `get_progress()` produces the formatted string
`"Level 3 - Food: 2/5"`, not the triple `(3, 2, 5)` (nor any rendering of
it): the source returns an f-string. -/
theorem get_progress_counterexample :
    gsProgress.get_progress = "Level 3 - Food: 2/5" ∧
    gsProgress.get_progress ≠ toString (get_progress_spec gsProgress) := by
  exact ⟨rfl, by decide⟩

/-- C9 amended: `get_progress()` returns the formatted string
`"Level {level} - Food: {foods_eaten}/{foods_per_level}"` describing the
current level, the foods eaten this level, and the per-level threshold. -/
theorem get_progress_formats_string (gs : GameState) :
    gs.get_progress =
      "Level " ++ toString gs.level ++ " - Food: " ++
        toString gs.foods_eaten ++ "/" ++ toString gs.foods_per_level := rfl

/-! ### C4: exhausted board makes `regenerate` loop forever -/

/-- C4 (code bug): when the free interior is exhausted, `regenerate` never
returns — for every fuel bound, every generator function and every generator
state, the sampling loop fails to terminate (the source loops forever
instead of failing explicitly). -/
theorem regenerate_exhausted_never_returns (draw : Nat → Nat → Nat)
    (fuel : Nat) (g : RState) :
    Food.regenerate draw fuel [(1, 1)] fullFood g = none := by
  induction fuel generalizing g with
  | zero => rfl
  | succ n ih =>
    unfold Food.regenerate
    norm_num [fullFood, randint, Int.emod_one]
    exact ih _

/-! ### C7: `regenerate` postcondition -/

/-- C7: whenever `Food.regenerate(snake_body)` returns, the new food position
avoids both `snake_body` and the food's current obstacle list, and lies in
the open interior `1 ≤ x ≤ width - 2`, `1 ≤ y ≤ height - 2`. -/
theorem regenerate_position_valid (draw : Nat → Nat → Nat) (fuel : Nat)
    (snake_body : List (Int × Int)) (f : Food) (g : RState)
    (f' : Food) (g' : RState)
    (h : Food.regenerate draw fuel snake_body f g = some (f', g')) :
    f'.position ∉ snake_body ∧ f'.position ∉ f.obstacles ∧
    1 ≤ f'.position.1 ∧ f'.position.1 ≤ f.width - 2 ∧
    1 ≤ f'.position.2 ∧ f'.position.2 ≤ f.height - 2 := by
  induction fuel generalizing g with
  | zero => exact absurd h (by simp [Food.regenerate])
  | succ n ih =>
    unfold Food.regenerate at h
    cases hx : randint draw 1 (f.width - 2) g with
    | none => rw [hx] at h; exact absurd h (by simp)
    | some xg =>
      obtain ⟨x, g1⟩ := xg
      rw [hx] at h
      dsimp only at h
      cases hy : randint draw 1 (f.height - 2) g1 with
      | none => rw [hy] at h; exact absurd h (by simp)
      | some yg =>
        obtain ⟨y, g2⟩ := yg
        rw [hy] at h
        dsimp only at h
        split at h
        · rename_i hfree
          injection h with h'
          have hf' : f' = { f with position := (x, y) } := by
            have := congrArg Prod.fst h'
            simpa using this.symm
          obtain ⟨hx1, hx2⟩ := randint_bounds hx
          obtain ⟨hy1, hy2⟩ := randint_bounds hy
          subst hf'
          exact ⟨hfree.1, hfree.2, hx1, hx2, hy1, hy2⟩
        · exact ih _ h

/-- Witness for `regenerate_position_valid`: on a 5×5 board with the snake
occupying `(1, 1)` and no obstacles, a concrete generator produces the food
at `(1, 2)`, which avoids the snake and lies in the interior. -/
theorem regenerate_position_valid_witness :
    (Food.mk 5 5 [] (1, 2)).position ∉ [((1 : Int), (1 : Int))] ∧
    (Food.mk 5 5 [] (1, 2)).position ∉ (Food.mk 5 5 [] (1, 1)).obstacles ∧
    1 ≤ (Food.mk 5 5 [] (1, 2)).position.1 ∧
    (Food.mk 5 5 [] (1, 2)).position.1 ≤ (Food.mk 5 5 [] (1, 1)).width - 2 ∧
    1 ≤ (Food.mk 5 5 [] (1, 2)).position.2 ∧
    (Food.mk 5 5 [] (1, 2)).position.2 ≤ (Food.mk 5 5 [] (1, 1)).height - 2 := by
  have h : Food.regenerate (fun _ i => i) 5 [(1, 1)]
      (Food.mk 5 5 [] (1, 1)) (0, 0) =
      some (Food.mk 5 5 [] (1, 2), (0, 2)) := by decide
  exact regenerate_position_valid _ 5 _ _ _ _ _ h

/-! ### Case analysis of one `update()` tick -/

/-- Exhaustive description of every way `update()` can return: the board
dimensions, threshold and maximum level never change, and the scoring
fields evolve according to which branch was taken (no tick, plain move,
food without level completion, food completing the final level, food
completing a non-final level). -/
theorem update_cases (draw : Nat → Nat → Nat) (fuel : Nat)
    (gs : GameState) (g : RState) (gs' : GameState) (b : Bool) (g' : RState)
    (h : GameState.update draw fuel gs g = some (gs', b, g')) :
    gs'.width = gs.width ∧ gs'.height = gs.height ∧
    gs'.foods_per_level = gs.foods_per_level ∧ gs'.max_level = gs.max_level ∧
    ((b = false ∧ gs'.score = gs.score ∧ gs'.level = gs.level ∧
      gs'.foods_eaten = gs.foods_eaten ∧ gs'.game_won = gs.game_won) ∨
     (b = true ∧ gs'.game_over = gs.game_over ∧ gs'.score = gs.score ∧
      gs'.level = gs.level ∧ gs'.foods_eaten = gs.foods_eaten ∧
      gs'.game_won = gs.game_won) ∨
     (b = true ∧ gs'.game_over = gs.game_over ∧
      gs.foods_eaten + 1 < gs.foods_per_level ∧ gs'.score = gs.score + 10 ∧
      gs'.level = gs.level ∧ gs'.foods_eaten = gs.foods_eaten + 1 ∧
      gs'.game_won = gs.game_won) ∨
     (b = true ∧ gs'.game_over = gs.game_over ∧
      gs.foods_per_level ≤ gs.foods_eaten + 1 ∧ gs.max_level ≤ gs.level ∧
      gs'.score = gs.score + 10 ∧ gs'.level = gs.level ∧
      gs'.foods_eaten = gs.foods_eaten + 1 ∧ gs'.game_won = true) ∨
     (b = true ∧ gs'.game_over = gs.game_over ∧
      gs.foods_per_level ≤ gs.foods_eaten + 1 ∧ gs.level < gs.max_level ∧
      gs'.score = gs.score + 60 ∧ gs'.level = gs.level + 1 ∧
      gs'.foods_eaten = 0 ∧ gs'.game_won = gs.game_won)) := by
  simp only [GameState.update, GameState.advance_level] at h
  split at h
  · -- already terminal
    obtain ⟨rfl, rfl, rfl⟩ := by simpa using h
    exact ⟨rfl, rfl, rfl, rfl, Or.inl ⟨rfl, rfl, rfl, rfl, rfl⟩⟩
  · split at h
    · -- wall collision
      obtain ⟨rfl, rfl, rfl⟩ := by simpa using h
      exact ⟨rfl, rfl, rfl, rfl, Or.inl ⟨rfl, rfl, rfl, rfl, rfl⟩⟩
    · split at h
      · -- obstacle generator failed
        exact absurd h (by simp)
      · split at h
        · -- obstacle collision
          obtain ⟨rfl, rfl, rfl⟩ := by simpa using h
          exact ⟨rfl, rfl, rfl, rfl, Or.inl ⟨rfl, rfl, rfl, rfl, rfl⟩⟩
        · split at h
          · -- self collision
            obtain ⟨rfl, rfl, rfl⟩ := by simpa using h
            exact ⟨rfl, rfl, rfl, rfl, Or.inl ⟨rfl, rfl, rfl, rfl, rfl⟩⟩
          · split at h
            · -- food eaten
              split at h
              · -- regeneration failed
                exact absurd h (by simp)
              · split at h
                · -- level completed: inspect the advance-level result
                  rename_i hth
                  split at h
                  · -- advance-level failed
                    exact absurd h (by simp)
                  · rename_i gs4 g3 hadv
                    obtain ⟨rfl, rfl, rfl⟩ := by simpa using h
                    split at hadv
                    · -- already at the maximum level: game won
                      rename_i hmax
                      obtain ⟨rfl, rfl⟩ := by simpa using hadv
                      refine ⟨rfl, rfl, rfl, rfl,
                        Or.inr (Or.inr (Or.inr (Or.inl
                          ⟨rfl, rfl, by simpa using hth, by simpa using hmax,
                           rfl, rfl, rfl, rfl⟩)))⟩
                    · -- advance to the next level
                      rename_i hmax
                      split at hadv
                      · exact absurd hadv (by simp)
                      · split at hadv
                        · exact absurd hadv (by simp)
                        · obtain ⟨rfl, rfl⟩ := by simpa using hadv
                          refine ⟨rfl, rfl, rfl, rfl,
                            Or.inr (Or.inr (Or.inr (Or.inr
                              ⟨rfl, rfl, by simpa using hth,
                               by simpa using hmax, rfl, rfl, rfl, rfl⟩)))⟩
                · -- food without level completion
                  rename_i hth
                  obtain ⟨rfl, rfl, rfl⟩ := by simpa using h
                  refine ⟨rfl, rfl, rfl, rfl,
                    Or.inr (Or.inr (Or.inl
                      ⟨rfl, rfl, by simpa using hth, rfl, rfl, rfl, rfl⟩))⟩
            · -- plain move
              obtain ⟨rfl, rfl, rfl⟩ := by simpa using h
              exact ⟨rfl, rfl, rfl, rfl,
                Or.inr (Or.inl ⟨rfl, rfl, rfl, rfl, rfl, rfl⟩)⟩

/-! ### C1: return value of `update()` and absorbing terminal states -/

/-- C1 amended: `update()` returns false exactly when the state was already
terminal or the call itself sets `game_over`; the call on which `game_won`
becomes true still returns true; and once a terminal flag is set, `update()`
changes no field of the state and returns false. -/
theorem update_return_contract (draw : Nat → Nat → Nat) (fuel : Nat)
    (gs : GameState) (g : RState) :
    ((gs.game_over ∨ gs.game_won) →
      GameState.update draw fuel gs g = some (gs, false, g)) ∧
    (¬ (gs.game_over ∨ gs.game_won) →
      ∀ gs' b g', GameState.update draw fuel gs g = some (gs', b, g') →
        (b = false ↔ gs'.game_over = true)) := by
  constructor
  · intro ht
    simp only [GameState.update]
    exact if_pos ht
  · intro ht gs' b g' h
    have hgo : gs.game_over = false := by
      cases hgo : gs.game_over
      · rfl
      · exact absurd (Or.inl hgo) ht
    simp only [GameState.update, GameState.advance_level] at h
    rw [if_neg ht] at h
    split at h
    · -- wall collision
      obtain ⟨rfl, rfl, rfl⟩ := by simpa using h
      simp
    · split at h
      · exact absurd h (by simp)
      · split at h
        · -- obstacle collision
          obtain ⟨rfl, rfl, rfl⟩ := by simpa using h
          simp
        · split at h
          · -- self collision
            obtain ⟨rfl, rfl, rfl⟩ := by simpa using h
            simp
          · split at h
            · -- food eaten
              split at h
              · exact absurd h (by simp)
              · split at h
                · -- level completed
                  split at h
                  · exact absurd h (by simp)
                  · rename_i gs4 g3 hadv
                    obtain ⟨rfl, rfl, rfl⟩ := by simpa using h
                    split at hadv
                    · obtain ⟨rfl, rfl⟩ := by simpa using hadv
                      simp [hgo]
                    · split at hadv
                      · exact absurd hadv (by simp)
                      · split at hadv
                        · exact absurd hadv (by simp)
                        · obtain ⟨rfl, rfl⟩ := by simpa using hadv
                          simp [hgo]
                · -- food without level completion
                  obtain ⟨rfl, rfl, rfl⟩ := by simpa using h
                  simp [hgo]
            · -- plain move
              obtain ⟨rfl, rfl, rfl⟩ := by simpa using h
              simp [hgo]

/-- C1 counterexample: on the tick that wins the game (fifth food of level
10), `update()` makes `game_won` true yet returns `true`, not `false` — the
claim that the winning `update()` call returns false is refuted. -/
theorem update_win_tick_returns_true :
    (GameState.update drawC 9 gsWin (0, 0)).map
        (fun r => (r.2.1, r.1.game_won, r.1.game_over)) =
      some (true, true, false) := by decide

/-- Witness for `update_return_contract`: the terminal clause at the dead
state `gsDead` and the non-terminal clause at the plain move from `gsA`. -/
theorem update_return_contract_witness :
    GameState.update drawC 1 gsDead (0, 0) = some (gsDead, false, (0, 0)) ∧
    (true = false ↔ gsA1.game_over = true) :=
  ⟨(update_return_contract drawC 1 gsDead (0, 0)).1 (Or.inl rfl),
   (update_return_contract drawC 1 gsA (0, 0)).2 (by decide) gsA1 true (0, 0)
     (by decide)⟩

/-! ### C10: completing the threshold at the maximum level -/

/-- C10: on an `update()` call that eats food (the score changes) when the
level is already the maximum 10 and the foods-per-level threshold is reached
by that food, the game is marked won and the advance step returns
immediately: the level stays 10, `foods_eaten` is not reset (it equals the
threshold), and the score grows by exactly the 10 food points — no 50-point
completion bonus. -/
theorem advance_at_max_spec (draw : Nat → Nat → Nat) (fuel : Nat)
    (gs : GameState) (g : RState) (gs' : GameState) (b : Bool) (g' : RState)
    (h : GameState.update draw fuel gs g = some (gs', b, g'))
    (hfood : gs'.score ≠ gs.score)
    (hlv : gs.level = 10) (hmax : gs.max_level = 10)
    (hth : gs.foods_eaten + 1 = gs.foods_per_level) :
    gs'.game_won = true ∧ gs'.level = 10 ∧
    gs'.foods_eaten = gs.foods_per_level ∧ gs'.score = gs.score + 10 := by
  obtain ⟨-, -, -, -, hc⟩ := update_cases draw fuel gs g gs' b g' h
  rcases hc with ⟨-, hs, -, -, -⟩ | ⟨-, -, hs, -, -, -⟩ |
    ⟨-, -, hlt, -, -, -, -⟩ | ⟨-, -, -, -, hs, hl, hf, hw⟩ |
    ⟨-, -, -, hlt, -, -, -, -⟩
  · exact absurd hs hfood
  · exact absurd hs hfood
  · omega
  · exact ⟨hw, by omega, by omega, hs⟩
  · omega

/-- Witness for `advance_at_max_spec` at the concrete winning tick. -/
theorem advance_at_max_spec_witness :
    gsWinAfter.game_won = true ∧ gsWinAfter.level = 10 ∧
    gsWinAfter.foods_eaten = gsWin.foods_per_level ∧
    gsWinAfter.score = gsWin.score + 10 := by
  have h : GameState.update drawC 9 gsWin (0, 0) =
      some (gsWinAfter, true, gWinAfter) := by decide
  exact advance_at_max_spec drawC 9 gsWin (0, 0) gsWinAfter true gWinAfter h
    (by decide) rfl rfl rfl

/-! ### C8: five foods at level 1 -/

/-- Running `n` more food ticks (interleaved with any number of quiet ticks)
from a level-1 configuration with `k` foods eaten yields `k + n` foods eaten,
as long as the threshold is never reached. -/
theorem playsN_invariant (draw : Nat → Nat → Nat) {n : Nat}
    {s t : GameState × RState} (hp : PlaysN draw n s t) :
    ∀ k : Nat, LevelOneRun s.1 k → k + n < 5 → LevelOneRun t.1 (k + n) := by
  induction hp with
  | refl s => intro k hk _; simpa using hk
  | quiet h hs _ ih =>
    intro k hk hn
    dsimp only at hk ih
    obtain ⟨hl, hf, hsc, hfpl, hml⟩ := hk
    obtain ⟨-, -, hfpl', hml', hc⟩ := update_cases _ _ _ _ _ _ _ h
    rcases hc with ⟨hb, -, -, -, -⟩ | ⟨-, -, -, hl', hf', -⟩ |
      ⟨-, -, -, hs', -, -, -⟩ | ⟨-, -, -, -, hs', -, -, -⟩ |
      ⟨-, -, -, -, hs', -, -, -⟩
    · exact absurd hb (by simp)
    · exact ih k ⟨by omega, by omega, by omega, by omega, by omega⟩ hn
    · omega
    · omega
    · omega
  | food h hs _ ih =>
    intro k hk hn
    dsimp only at hk ih
    obtain ⟨hl, hf, hsc, hfpl, hml⟩ := hk
    obtain ⟨-, -, hfpl', hml', hc⟩ := update_cases _ _ _ _ _ _ _ h
    rcases hc with ⟨hb, -, -, -, -⟩ | ⟨-, -, hs', -, -, -⟩ |
      ⟨-, -, -, hs', hl', hf', -⟩ | ⟨-, -, hth, -, -, -, -, -⟩ |
      ⟨-, -, hth, -, -, -, -, -⟩
    · exact absurd hb (by simp)
    · exact absurd hs' hs
    · have h2 := ih (k + 1)
        ⟨by omega, by omega, by omega, by omega, by omega⟩ (by omega)
      rw [Nat.add_assoc, Nat.add_comm 1] at h2
      exact h2
    · omega
    · omega

/-- C8: in any run starting from a state with level 1, no foods eaten, score
0, threshold 5 and maximum level 10, after four food-eating ticks
(interleaved with arbitrarily many plain ticks) and then a fifth food-eating
tick, the resulting state has level 2, `foods_eaten` reset to 0, score
exactly 100 (5 × 10 food points + 50 completion bonus), and `get_obstacles()`
now queries the level-2 generator (the centered-cross pattern). -/
theorem level_one_five_foods (draw : Nat → Nat → Nat) (fuel : Nat)
    (gs0 : GameState) (g0 : RState) (gs4 : GameState) (g4 : RState)
    (gs5 : GameState) (b : Bool) (g5 : RState)
    (h0 : gs0.level = 1) (h1 : gs0.foods_eaten = 0) (h2 : gs0.score = 0)
    (h3 : gs0.foods_per_level = 5) (h4 : gs0.max_level = 10)
    (hp : PlaysN draw 4 (gs0, g0) (gs4, g4))
    (h5 : GameState.update draw fuel gs4 g4 = some (gs5, b, g5))
    (hfood : gs5.score ≠ gs4.score) :
    gs5.level = 2 ∧ gs5.foods_eaten = 0 ∧ gs5.score = 100 ∧
    ∀ g : RState, GameState.get_obstacles draw gs5 g =
      get_level_obstacles draw 2 gs5.width gs5.height g := by
  have hinv : LevelOneRun gs4 4 := by
    have := playsN_invariant draw hp 0
      ⟨h0, h1, by simpa using h2, h3, h4⟩ (by omega)
    simpa using this
  obtain ⟨hl4, hf4, hs4, hfpl4, hml4⟩ := hinv
  obtain ⟨-, -, -, -, hc⟩ := update_cases draw fuel gs4 g4 gs5 b g5 h5
  rcases hc with ⟨-, hs, -, -, -⟩ | ⟨-, -, hs, -, -, -⟩ |
    ⟨-, -, hlt, -, -, -, -⟩ | ⟨-, -, -, hge, -, -, -, -⟩ |
    ⟨-, -, -, -, hs, hl, hf, -⟩
  · exact absurd hs hfood
  · exact absurd hs hfood
  · omega
  · omega
  · refine ⟨by omega, hf, by omega, ?_⟩
    intro g
    have : gs5.level = 2 := by omega
    simp [GameState.get_obstacles, this]

/-- Witness for `level_one_five_foods`: a concrete five-tick run in which
the snake eats on every tick; the final state is at level 2 with counter
reset, score 100, and level-2 obstacles. -/
theorem level_one_five_foods_witness :
    sB5.1.level = 2 ∧ sB5.1.foods_eaten = 0 ∧ sB5.1.score = 100 ∧
    GameState.get_obstacles drawB sB5.1 (0, 12) =
      get_level_obstacles drawB 2 sB5.1.width sB5.1.height (0, 12) := by
  have e1 : GameState.update drawB 9 gsB0 (0, 0) =
      some (sB1.1, true, sB1.2) := by decide
  have e2 : GameState.update drawB 9 sB1.1 sB1.2 =
      some (sB2.1, true, sB2.2) := by decide
  have e3 : GameState.update drawB 9 sB2.1 sB2.2 =
      some (sB3.1, true, sB3.2) := by decide
  have e4 : GameState.update drawB 9 sB3.1 sB3.2 =
      some (sB4.1, true, sB4.2) := by decide
  have e5 : GameState.update drawB 9 sB4.1 sB4.2 =
      some (sB5.1, true, sB5.2) := by decide
  have hp : PlaysN drawB 4 (gsB0, (0, 0)) (sB4.1, sB4.2) :=
    PlaysN.food e1 (by decide)
      (PlaysN.food e2 (by decide)
        (PlaysN.food e3 (by decide)
          (PlaysN.food e4 (by decide) (PlaysN.refl _))))
  obtain ⟨c1, c2, c3, c4⟩ := level_one_five_foods drawB 9 gsB0 (0, 0)
    sB4.1 sB4.2 sB5.1 true sB5.2 rfl rfl rfl rfl rfl hp e5 (by decide)
  exact ⟨c1, c2, c3, c4 (0, 12)⟩

/-! ### C5: seeded levels are deterministic -/

/-- C5: for the seeded levels (7, and every level ≥ 10) the result of
`get_level_obstacles` is independent of the incoming generator state — any
two invocations with the same arguments return identical obstacle lists, no
matter what was drawn (or how the generator was seeded) beforehand, because
the generator is re-seeded from the level number alone before any draw. -/
theorem seeded_levels_deterministic (draw : Nat → Nat → Nat) (level : Nat)
    (width height : Int) (g1 g2 : RState)
    (hl : level = 7 ∨ 10 ≤ level) :
    get_level_obstacles draw level width height g1 =
      get_level_obstacles draw level width height g2 := by
  rcases hl with rfl | hl
  · rfl
  · unfold get_level_obstacles
    simp only [if_neg (show ¬ level = 1 from by omega),
      if_neg (show ¬ level = 2 from by omega),
      if_neg (show ¬ level = 3 from by omega),
      if_neg (show ¬ level = 4 from by omega),
      if_neg (show ¬ level = 5 from by omega),
      if_neg (show ¬ level = 6 from by omega),
      if_neg (show ¬ level = 7 from by omega),
      if_neg (show ¬ level = 8 from by omega),
      if_neg (show ¬ level = 9 from by omega),
      if_pos hl, rseed]

/-- Witness for `seeded_levels_deterministic`: level 7 on a 9×9 board from
two very different generator histories. -/
theorem seeded_levels_deterministic_witness :
    get_level_obstacles (fun s i => s + i) 7 9 9 (5, 5) =
      get_level_obstacles (fun s i => s + i) 7 9 9 (123, 55) :=
  seeded_levels_deterministic (fun s i => s + i) 7 9 9 (5, 5) (123, 55)
    (Or.inl rfl)

/-! ### C3: obstacles and the border ring -/

theorem mem_intRange {a b x : Int} : x ∈ intRange a b ↔ a ≤ x ∧ x < b := by
  constructor
  · intro hx
    unfold intRange at hx
    obtain ⟨i, hi, rfl⟩ := List.mem_map.1 hx
    rw [List.mem_range] at hi
    omega
  · intro h
    exact List.mem_map.2 ⟨(x - a).toNat, List.mem_range.2 (by omega), by omega⟩

theorem mem_intRange3 {a b x : Int} (h : x ∈ intRange3 a b) :
    a ≤ x ∧ x < b := by
  unfold intRange3 at h
  obtain ⟨i, hi, rfl⟩ := List.mem_map.1 h
  rw [List.mem_range] at hi
  omega

theorem foldl_preserve {α β : Type} {P : β → Prop} :
    ∀ (l : List α) (f : List β → α → List β) (init : List β),
      (∀ b ∈ init, P b) →
      (∀ acc a, a ∈ l → (∀ b ∈ acc, P b) → ∀ b ∈ f acc a, P b) →
      ∀ b ∈ l.foldl f init, P b := by
  intro l
  induction l with
  | nil => intro f init hinit _ b hb; exact hinit b hb
  | cons x xs ih =>
    intro f init hinit hstep b hb
    exact ih f (f init x) (hstep init x (List.mem_cons_self x xs) hinit)
      (fun acc a ha => hstep acc a (List.mem_cons_of_mem x ha)) b hb

theorem scatter_mem {draw : Nat → Nat → Nat} {dupCheck : Bool}
    {ax bx ay bY : Int} :
    ∀ (n : Nat) (acc : List (Int × Int)) (g : RState)
      (res : List (Int × Int) × RState),
      scatter draw dupCheck ax bx ay bY n acc g = some res →
      ∀ p ∈ res.1,
        p ∈ acc ∨ (ax ≤ p.1 ∧ p.1 ≤ bx ∧ ay ≤ p.2 ∧ p.2 ≤ bY) := by
  intro n
  induction n with
  | zero =>
    intro acc g res h p hp
    unfold scatter at h
    injection h with h'
    subst h'
    exact Or.inl hp
  | succ n ih =>
    intro acc g res h p hp
    unfold scatter at h
    cases hx : randint draw ax bx g with
    | none => rw [hx] at h; exact absurd h (by simp)
    | some xg =>
      obtain ⟨x, g1⟩ := xg
      rw [hx] at h
      dsimp only at h
      cases hy : randint draw ay bY g1 with
      | none => rw [hy] at h; exact absurd h (by simp)
      | some yg =>
        obtain ⟨y, g2⟩ := yg
        rw [hy] at h
        dsimp only at h
        split at h
        · exact ih acc g2 res h p hp
        · rcases ih (acc ++ [(x, y)]) g2 res h p hp with hmem | hb
          · rcases List.mem_append.1 hmem with hmem | hmem
            · exact Or.inl hmem
            · obtain rfl : p = (x, y) := by simpa using hmem
              obtain ⟨hx1, hx2⟩ := randint_bounds hx
              obtain ⟨hy1, hy2⟩ := randint_bounds hy
              exact Or.inr ⟨hx1, hx2, hy1, hy2⟩
          · exact Or.inr hb

/-- C3 counterexample: at level 3 on a 5×5 board the obstacle list contains
`(3, 5)` — on/beyond the border ring (`5 ≮ 5 - 1`) — and even `(-3, -1)`,
entirely outside the board: the corner-block generator does no clipping. -/
theorem obstacles_outside_board_counterexample :
    (get_level_obstacles drawC 3 5 5 (0, 0)).map
        (fun r => (decide ((3, 5) ∈ r.1), decide ((-3, -1) ∈ r.1))) =
      some (true, true) ∧
    ¬ ((5 : Int) < 5 - 1) ∧ ¬ (0 < (-3 : Int)) := by decide

theorem interior_mk {width height x y : Int} (h1 : 0 < x)
    (h2 : x < width - 1) (h3 : 0 < y) (h4 : y < height - 1) :
    Interior width height (x, y) := ⟨h1, h2, h3, h4⟩

/-- C3 amended: for every level other than 3 and 4, whenever
`get_level_obstacles(level, w, h)` returns at all on a board with
`w, h ≥ 5`, every obstacle lies strictly inside the border ring
(`0 < x < w - 1` and `0 < y < h - 1`); levels 3 and 4 violate this (see the
counterexample). -/
theorem obstacles_interior (draw : Nat → Nat → Nat) (level : Nat)
    (width height : Int) (g : RState) (res : List (Int × Int) × RState)
    (p : Int × Int)
    (hw : 5 ≤ width) (hh : 5 ≤ height)
    (h3 : level ≠ 3) (h4 : level ≠ 4)
    (hres : get_level_obstacles draw level width height g = some res)
    (hp : p ∈ res.1) :
    0 < p.1 ∧ p.1 < width - 1 ∧ 0 < p.2 ∧ p.2 < height - 1 := by
  show Interior width height p
  have hcase : level = 0 ∨ level = 1 ∨ level = 2 ∨ level = 3 ∨ level = 4 ∨
      level = 5 ∨ level = 6 ∨ level = 7 ∨ level = 8 ∨ level = 9 ∨
      10 ≤ level := by omega
  rcases hcase with rfl | rfl | rfl | rfl | rfl | rfl | rfl | rfl | rfl |
    rfl | h10
  · -- level 0 falls through every branch: no obstacles
    injection hres with h'
    subst h'
    simp at hp
  · -- level 1: no obstacles
    injection hres with h'
    subst h'
    simp at hp
  · -- level 2: clipped central cross
    injection hres with h'
    subst h'
    refine @foldl_preserve _ _ (Interior width height) _ _ _ ?_ ?_ p hp
    · refine @foldl_preserve _ _ (Interior width height) _ _ _ ?_ ?_
      · intro b hb
        simp at hb
      · intro acc y hy hacc b hb
        split at hb
        · rename_i hcond
          rcases List.mem_append.1 hb with hm | hm
          · exact hacc b hm
          · obtain rfl : b = (width / 2, y) := by simpa using hm
            exact interior_mk (by omega) (by omega) (by omega) (by omega)
        · exact hacc b hb
    · intro acc xx hx hacc b hb
      split at hb
      · rename_i hcond
        rcases List.mem_append.1 hb with hm | hm
        · exact hacc b hm
        · obtain rfl : b = (xx, height / 2) := by simpa using hm
          exact interior_mk (by omega) (by omega) (by omega) (by omega)
      · exact hacc b hb
  · exact absurd rfl h3
  · exact absurd rfl h4
  · -- level 5: spiral, clipped strictly inside
    injection hres with h'
    subst h'
    refine @foldl_preserve _ _ (Interior width height) _ _ _ ?_ ?_ p hp
    · intro b hb
      simp at hb
    · intro acc ring hring hacc b hb
      refine @foldl_preserve _ _ (Interior width height) _ _ _ hacc ?_ b hb
      intro acc2 dxy hdxy hacc2 b2 hb2
      dsimp only at hb2
      split at hb2
      · rename_i hcond
        rcases List.mem_append.1 hb2 with hm | hm
        · exact hacc2 b2 hm
        · obtain rfl : b2 = (width / 2 + dxy.1, height / 2 + dxy.2) := by
            simpa using hm
          exact interior_mk (by omega) (by omega) (by omega) (by omega)
      · exact hacc2 b2 hb2
  · -- level 6: rectangular ring three cells from the border
    injection hres with h'
    subst h'
    refine @foldl_preserve _ _ (Interior width height) _ _ _ ?_ ?_ p hp
    · refine @foldl_preserve _ _ (Interior width height) _ _ _ ?_ ?_
      · intro b hb
        simp at hb
      · intro acc xx hx hacc b hb
        rcases List.mem_append.1 hb with hm | hm
        · exact hacc b hm
        · obtain ⟨hx1, hx2⟩ := mem_intRange.1 hx
          rcases (by simpa using hm : b = (xx, 3) ∨ b = (xx, height - 4)) with
            rfl | rfl
          · exact interior_mk (by omega) (by omega) (by omega) (by omega)
          · exact interior_mk (by omega) (by omega) (by omega) (by omega)
    · intro acc y hy hacc b hb
      rcases List.mem_append.1 hb with hm | hm
      · exact hacc b hm
      · obtain ⟨hy1, hy2⟩ := mem_intRange.1 hy
        rcases (by simpa using hm : b = ((3 : Int), y) ∨ b = (width - 4, y))
          with rfl | rfl
        · exact interior_mk (by omega) (by omega) (by omega) (by omega)
        · exact interior_mk (by omega) (by omega) (by omega) (by omega)
  · -- level 7: seeded scatter in [4, w-5] × [4, h-5]
    have hres7 : scatter draw false 4 (width - 5) 4 (height - 5)
        ((min 20 (width * height / 20)).toNat) [] (42, 0) = some res := hres
    rcases scatter_mem _ _ _ _ hres7 p hp with hm | hb
    · simp at hm
    · exact ⟨by omega, by omega, by omega, by omega⟩
  · -- level 8: diamond, clipped strictly inside
    injection hres with h'
    subst h'
    refine @foldl_preserve _ _ (Interior width height) _ _ _ ?_ ?_ p hp
    · intro b hb
      simp at hb
    · intro acc xx hx hacc b hb
      refine @foldl_preserve _ _ (Interior width height) _ _ _ hacc ?_ b hb
      intro acc2 y hy hacc2 b2 hb2
      split at hb2
      · split at hb2
        · rename_i hcond
          rcases List.mem_append.1 hb2 with hm | hm
          · exact hacc2 b2 hm
          · obtain rfl : b2 = (xx, y) := by simpa using hm
            exact interior_mk (by omega) (by omega) (by omega) (by omega)
        · exact hacc2 b2 hb2
      · exact hacc2 b2 hb2
  · -- level 9: corridor grids with gaps
    injection hres with h'
    subst h'
    refine @foldl_preserve _ _ (Interior width height) _ _ _ ?_ ?_ p hp
    · refine @foldl_preserve _ _ (Interior width height) _ _ _ ?_ ?_
      · intro b hb
        simp at hb
      · intro acc xx hx hacc b hb
        refine @foldl_preserve _ _ (Interior width height) _ _ _ hacc ?_ b hb
        intro acc2 y hy hacc2 b2 hb2
        split at hb2
        · rcases List.mem_append.1 hb2 with hm | hm
          · exact hacc2 b2 hm
          · obtain rfl : b2 = (xx, y) := by simpa using hm
            obtain ⟨hx1, hx2⟩ := mem_intRange3 hx
            obtain ⟨hy1, hy2⟩ := mem_intRange.1 hy
            exact interior_mk (by omega) (by omega) (by omega) (by omega)
        · exact hacc2 b2 hb2
    · intro acc y hy hacc b hb
      refine @foldl_preserve _ _ (Interior width height) _ _ _ hacc ?_ b hb
      intro acc2 xx hx hacc2 b2 hb2
      split at hb2
      · rcases List.mem_append.1 hb2 with hm | hm
        · exact hacc2 b2 hm
        · obtain rfl : b2 = (xx, y) := by simpa using hm
          obtain ⟨hy1, hy2⟩ := mem_intRange3 hy
          obtain ⟨hx1, hx2⟩ := mem_intRange.1 hx
          exact interior_mk (by omega) (by omega) (by omega) (by omega)
      · exact hacc2 b2 hb2
  · -- level ≥ 10: clipped central cross plus seeded scatter
    simp only [get_level_obstacles,
      if_neg (show ¬ level = 1 from by omega),
      if_neg (show ¬ level = 2 from by omega),
      if_neg (show ¬ level = 3 from by omega),
      if_neg (show ¬ level = 4 from by omega),
      if_neg (show ¬ level = 5 from by omega),
      if_neg (show ¬ level = 6 from by omega),
      if_neg (show ¬ level = 7 from by omega),
      if_neg (show ¬ level = 8 from by omega),
      if_neg (show ¬ level = 9 from by omega),
      if_pos h10, rseed] at hres
    rcases scatter_mem _ _ _ _ hres p hp with hm | hb
    · refine @foldl_preserve _ _ (Interior width height) _ _ _ ?_ ?_ p hm
      · intro b hb2
        simp at hb2
      · intro acc i hi hacc b hb2
        split at hb2
        · rename_i hc2
          rcases List.mem_append.1 hb2 with hm2 | hm2
          · split at hm2
            · rename_i hc1
              rcases List.mem_append.1 hm2 with hm3 | hm3
              · exact hacc b hm3
              · obtain rfl : b = (width / 2 + i, height / 2) := by
                  simpa using hm3
                exact interior_mk (by omega) (by omega) (by omega) (by omega)
            · exact hacc b hm2
          · obtain rfl : b = (width / 2, height / 2 + i) := by simpa using hm2
            exact interior_mk (by omega) (by omega) (by omega) (by omega)
        · split at hb2
          · rename_i hc1
            rcases List.mem_append.1 hb2 with hm2 | hm2
            · exact hacc b hm2
            · obtain rfl : b = (width / 2 + i, height / 2) := by
                simpa using hm2
              exact interior_mk (by omega) (by omega) (by omega) (by omega)
          · exact hacc b hb2
    · exact ⟨by omega, by omega, by omega, by omega⟩

/-- Witness for `obstacles_interior`: level 2 on a 5×5 board; the member
`(2, 1)` of the cross lies strictly inside the ring. -/
theorem obstacles_interior_witness :
    0 < ((2 : Int), (1 : Int)).1 ∧ ((2 : Int), (1 : Int)).1 < 5 - 1 ∧
    0 < ((2 : Int), (1 : Int)).2 ∧ ((2 : Int), (1 : Int)).2 < 5 - 1 := by
  have h : get_level_obstacles drawC 2 5 5 (0, 0) =
      some ([(2, 1), (2, 2), (2, 3), (1, 2), (3, 2)], (0, 0)) := by decide
  exact obstacles_interior drawC 2 5 5 (0, 0) _ (2, 1) (by omega) (by omega)
    (by omega) (by omega) h (by decide)
